import Mathlib

/-!
Verification development for the OAuth authorization-code relay in
`backend/main.py` (OMI Computer auth backend).

The Python source is shallowly embedded: the two in-memory stores
(`auth_sessions`, `auth_codes`) become association lists keyed by strings,
`time.time()` becomes an explicit `now : Nat` parameter, `os.getenv`
configuration becomes an explicit environment record, and the outbound
network calls (provider token endpoints, Firebase identity toolkit) become
explicit function/record parameters describing the remote response.
Python truthiness on optional strings (`if not x:`) is modelled by
`truthyStr`, which treats both `None` and the empty string as absent.
HTTP outcomes are `Except HttpError α`: `Except.ok` is a 200 response,
`HttpError.badRequest` a 400 `HTTPException`, `HttpError.serverError` a 500.
-/

set_option maxHeartbeats 1000000

namespace OmiAuth

deriving instance DecidableEq for Except

/-- HTTP error outcomes raised via `HTTPException` in the source. -/
inductive HttpError where
  | badRequest (detail : String)
  | serverError (detail : String)
deriving DecidableEq

/-- Python truthiness for an optional string: `None` and `""` are falsy. -/
def truthyStr : Option String → Option String
  | some s => if s = "" then none else some s
  | none => none

/-- One entry of an in-memory store: `{'data': ..., 'expires': time.time() + ttl}`. -/
structure StoreEntry (α : Type) where
  data : α
  expires : Nat
deriving DecidableEq

/-- An in-memory dict (`auth_sessions` / `auth_codes`), as an association list. -/
def Store (α : Type) : Type := List (String × StoreEntry α)

instance (α : Type) [DecidableEq α] : DecidableEq (Store α) :=
  inferInstanceAs (DecidableEq (List (String × StoreEntry α)))

/-- `dict.get(key)`. -/
def storeGet {α : Type} (s : Store α) (k : String) : Option (StoreEntry α) :=
  List.lookup k s

/-- `dict[key] = value` (replaces any previous binding). -/
def storeSet {α : Type} (s : Store α) (k : String) (e : StoreEntry α) : Store α :=
  (k, e) :: (s : List (String × StoreEntry α)).filter (fun p => p.1 != k)

/-- `dict.pop(key, None)`. -/
def storePop {α : Type} (s : Store α) (k : String) : Store α :=
  (s : List (String × StoreEntry α)).filter (fun p => p.1 != k)

/-- The session dict stored by `auth_authorize`:
`{'provider': ..., 'redirect_uri': ..., 'state': ...}`. -/
structure SessionData where
  provider : String
  redirect_uri : String
  state : Option String
deriving DecidableEq

/-- `set_auth_session(session_id, data, ttl)` from `main.py`. -/
def set_auth_session (sessions : Store SessionData) (session_id : String)
    (d : SessionData) (ttl now : Nat) : Store SessionData :=
  storeSet sessions session_id ⟨d, now + ttl⟩

/-- `get_auth_session(session_id)` from `main.py`: returns the data only when
`session['expires'] > time.time()`. -/
def get_auth_session (sessions : Store SessionData) (session_id : String)
    (now : Nat) : Option SessionData :=
  match storeGet sessions session_id with
  | some e => if e.expires > now then some e.data else none
  | none => none

/-- `set_auth_code(code, data, ttl)` from `main.py`. -/
def set_auth_code (codes : Store String) (code data : String)
    (ttl now : Nat) : Store String :=
  storeSet codes code ⟨data, now + ttl⟩

/-- `get_auth_code(code)` from `main.py`. -/
def get_auth_code (codes : Store String) (code : String) (now : Nat) : Option String :=
  match storeGet codes code with
  | some e => if e.expires > now then some e.data else none
  | none => none

/-- `delete_auth_code(code)` from `main.py`. -/
def delete_auth_code (codes : Store String) (code : String) : Store String :=
  storePop codes code

/-! ### Percent-encoding (`urllib.parse.quote` with its default `safe='/'`)

The model covers the ASCII inputs the backend actually handles (client ids,
base URLs, UUID session ids); `quote` percent-encodes every character that is
not an ASCII letter, digit, one of `_.-~`, or the default-safe `/`. -/

/-- Characters `urllib.parse.quote` leaves unescaped (always-safe set plus
the default `safe='/'`). -/
def quoteSafe (c : Char) : Bool :=
  c.isAlpha || c.isDigit || c = '_' || c = '.' || c = '-' || c = '~' || c = '/'

/-- Upper-case hexadecimal digit, as used in percent-escapes. -/
def hexUpperDigit (n : Nat) : Char :=
  List.getD ['0', '1', '2', '3', '4', '5', '6', '7', '8', '9',
             'A', 'B', 'C', 'D', 'E', 'F'] n '0'

/-- Percent-encoding of one character. -/
def quoteChar (c : Char) : List Char :=
  if quoteSafe c then [c]
  else ['%', hexUpperDigit (c.toNat / 16 % 16), hexUpperDigit (c.toNat % 16)]

/-- `urllib.parse.quote(s)` (ASCII fragment). -/
def quote (s : String) : String :=
  String.mk (s.data.flatMap quoteChar)

/-- Numeric value of one hexadecimal digit. -/
def hexVal (c : Char) : Nat :=
  if c.isDigit then c.toNat - '0'.toNat
  else if 'A' ≤ c ∧ c ≤ 'F' then c.toNat - 'A'.toNat + 10
  else if 'a' ≤ c ∧ c ≤ 'f' then c.toNat - 'a'.toNat + 10
  else 0

/-- Percent-decoding over characters (`urllib.parse.unquote` on well-formed
ASCII input). -/
def unquoteChars : List Char → List Char
  | [] => []
  | c :: h :: l :: rest =>
    if c = '%' then Char.ofNat (16 * hexVal h + hexVal l) :: unquoteChars rest
    else c :: unquoteChars (h :: l :: rest)
  | c :: rest => c :: unquoteChars rest

/-- Percent-decoding of a string. -/
def unquote (s : String) : String :=
  String.mk (unquoteChars s.data)

/-! ### Query-string parsing (to state properties of the produced URLs) -/

/-- The suffix after the first occurrence of `sep` (empty if none). -/
def afterChar (sep : Char) : List Char → List Char
  | [] => []
  | c :: rest => if c = sep then rest else afterChar sep rest

/-- The prefix before the first occurrence of `sep` (everything if none). -/
def beforeChar (sep : Char) : List Char → List Char
  | [] => []
  | c :: rest => if c = sep then [] else c :: beforeChar sep rest

/-- Split on a separator character, with an accumulator for the current piece. -/
def splitOnCharAux (sep : Char) : List Char → List Char → List (List Char)
  | [], acc => [acc.reverse]
  | c :: rest, acc =>
    if c = sep then acc.reverse :: splitOnCharAux sep rest []
    else splitOnCharAux sep rest (c :: acc)

/-- The `key=value` pairs of a URL's query string. -/
def queryParams (url : String) : List (String × String) :=
  (splitOnCharAux '&' (afterChar '?' url.data) []).map
    (fun p => (String.mk (beforeChar '=' p), String.mk (afterChar '=' p)))

/-- The raw (still percent-encoded) value of a query parameter. -/
def getQueryParam (url k : String) : Option String :=
  List.lookup k (queryParams url)

/-- The percent-decoded value of a query parameter. -/
def getQueryParamDecoded (url k : String) : Option String :=
  (getQueryParam url k).map unquote

/-! ### Authorize URLs (`_apple_auth_redirect`, `_google_auth_redirect`) -/

/-- `os.getenv('BASE_API_URL', 'http://localhost:8080')`. -/
def baseApiUrl (v : Option String) : String :=
  v.getD "http://localhost:8080"

/-- The Apple authorize URL f-string from `_apple_auth_redirect`
(`main.py` lines 256-264); note that no value is passed through `quote`. -/
def appleAuthUrl (client_id api_base_url session_id : String) : String :=
  "https://appleid.apple.com/auth/authorize?" ++
  "client_id=" ++ client_id ++ "&" ++
  "redirect_uri=" ++ (api_base_url ++ "/v1/auth/callback/apple") ++ "&" ++
  "response_type=code&" ++
  "scope=name email&" ++
  "response_mode=form_post&" ++
  "state=" ++ session_id

/-- The Google authorize URL f-string from `_google_auth_redirect`
(`main.py` lines 279-286); every interpolated value goes through `quote`. -/
def googleAuthUrl (client_id api_base_url session_id : String) : String :=
  "https://accounts.google.com/o/oauth2/v2/auth?" ++
  "client_id=" ++ quote client_id ++ "&" ++
  "redirect_uri=" ++ quote (api_base_url ++ "/v1/auth/callback/google") ++ "&" ++
  "response_type=code&" ++
  "scope=" ++ quote "openid email profile" ++ "&" ++
  "state=" ++ quote session_id

/-- The `os.getenv` configuration consulted by the backend. -/
structure Env where
  apple_client_id : Option String
  apple_team_id : Option String
  apple_key_id : Option String
  apple_private_key : Option String
  google_client_id : Option String
  google_client_secret : Option String
  base_api_url : Option String
deriving DecidableEq

/-- `_apple_auth_redirect(session_id)`: 500 when `APPLE_CLIENT_ID` is not
configured, otherwise a redirect to the Apple authorize URL. -/
def apple_auth_redirect (env : Env) (session_id : String) : Except HttpError String :=
  match truthyStr env.apple_client_id with
  | none => .error (.serverError "APPLE_CLIENT_ID not configured")
  | some cid => .ok (appleAuthUrl cid (baseApiUrl env.base_api_url) session_id)

/-- `_google_auth_redirect(session_id)`. -/
def google_auth_redirect (env : Env) (session_id : String) : Except HttpError String :=
  match truthyStr env.google_client_id with
  | none => .error (.serverError "GOOGLE_CLIENT_ID not configured")
  | some cid => .ok (googleAuthUrl cid (baseApiUrl env.base_api_url) session_id)

/-- `auth_authorize(provider, redirect_uri, state)` (`main.py` lines 100-124):
validates the provider, stores a session under a fresh `session_id`
(the `uuid4` value, passed explicitly), and redirects to the provider's
authorize URL. Returns the HTTP outcome and the new session store. -/
def auth_authorize (env : Env) (sessions : Store SessionData)
    (provider redirect_uri : String) (state : Option String)
    (now : Nat) (session_id : String) :
    Except HttpError String × Store SessionData :=
  if provider ≠ "google" ∧ provider ≠ "apple" then
    (.error (.badRequest "Unsupported provider"), sessions)
  else
    let sessions' := set_auth_session sessions session_id
      ⟨provider, redirect_uri, state⟩ 300 now
    if provider = "apple" then (apple_auth_redirect env session_id, sessions')
    else (google_auth_redirect env session_id, sessions')

/-! ### Provider code exchange and the Apple client assertion -/

/-- The payload extracted from an OAuth credentials JSON object with `.get`
(each key may be absent). -/
structure OAuthCredentials where
  provider : Option String
  id_token : Option String
  access_token : Option String
  provider_id : Option String
deriving DecidableEq

/-- The claim set of the Apple client-secret JWT built by
`_generate_apple_client_secret` (`main.py` lines 386-393), with
`now = int(time.time())`. -/
structure AppleSecretClaims where
  iss : String
  iat : Nat
  exp : Nat
  aud : String
  sub : String
deriving DecidableEq

/-- `_generate_apple_client_secret(client_id, team_id, key_id, private_key)`:
the claim set it signs (the ES256 signature itself is outside the model). -/
def generate_apple_client_secret (client_id team_id : String) (now : Nat) :
    AppleSecretClaims :=
  { iss := team_id
    iat := now
    exp := now + 3600
    aud := "https://appleid.apple.com"
    sub := client_id }

/-- The form body `_exchange_apple_code` posts to Apple's token endpoint
(`main.py` lines 307-317), with the client secret kept as its claim set. -/
structure AppleTokenRequest where
  client_id : String
  client_secret : AppleSecretClaims
  code : String
  grant_type : String
  redirect_uri : String
deriving DecidableEq

/-- A provider token-endpoint response: HTTP status plus the `.get` fields
the backend reads from its JSON body. -/
structure ProviderTokenResponse where
  status : Nat
  id_token : Option String
  access_token : Option String

/-- The request `_exchange_apple_code` sends, `none` when the configuration
check `if not all([client_id, team_id, key_id, private_key_content])` fails.
A fresh client secret is generated from the current time on every call. -/
def exchange_apple_request (env : Env) (code : String) (now : Nat) :
    Option AppleTokenRequest :=
  match truthyStr env.apple_client_id, truthyStr env.apple_team_id,
        truthyStr env.apple_key_id, truthyStr env.apple_private_key with
  | some cid, some tid, some _kid, some _pk =>
    some { client_id := cid
           client_secret := generate_apple_client_secret cid tid now
           code := code
           grant_type := "authorization_code"
           redirect_uri := baseApiUrl env.base_api_url ++ "/v1/auth/callback/apple" }
  | _, _, _, _ => none

/-- `_exchange_apple_code(code, session_data)` (`main.py` lines 291-335).
`respond` stands for the network call to Apple's token endpoint and `dumps`
for `json.dumps` of the resulting credentials dict. -/
def exchange_apple_code (env : Env) (code : String) (now : Nat)
    (respond : AppleTokenRequest → ProviderTokenResponse)
    (dumps : OAuthCredentials → String) : Except HttpError String :=
  match exchange_apple_request env code now with
  | none => .error (.serverError "Apple auth not configured")
  | some req =>
    let tr := respond req
    if tr.status ≠ 200 then .error (.badRequest "Failed to exchange Apple code")
    else
      match truthyStr tr.id_token with
      | none => .error (.badRequest "No ID token from Apple")
      | some idt =>
        .ok (dumps { provider := some "apple", id_token := some idt,
                     access_token := tr.access_token,
                     provider_id := some "apple.com" })

/-- `_exchange_google_code(code, session_data)` (`main.py` lines 338-376). -/
def exchange_google_code (env : Env) (code : String)
    (respond : ProviderTokenResponse)
    (dumps : OAuthCredentials → String) : Except HttpError String :=
  match truthyStr env.google_client_id, truthyStr env.google_client_secret with
  | some _cid, some _sec =>
    if respond.status ≠ 200 then .error (.badRequest "Failed to exchange Google code")
    else
      match truthyStr respond.id_token with
      | none => .error (.badRequest "No ID token from Google")
      | some idt =>
        .ok (dumps { provider := some "google", id_token := some idt,
                     access_token := respond.access_token,
                     provider_id := some "google.com" })
  | _, _ => .error (.serverError "Google auth not configured")

/-! ### Federation Bridge (`_generate_custom_token`) -/

/-- Configuration and remote behaviour seen by `_generate_custom_token`:
the `FIREBASE_API_KEY` env var, the Firebase `signInWithIdp` response
(status and `localId` field), and the result of
`firebase_auth.create_custom_token` (`none` when that call raises). -/
structure FirebaseEnv where
  firebase_api_key : Option String
  signin_status : Nat
  signin_localId : Option String
  create_custom_token : Option String
deriving DecidableEq

/-- The provider-id branch of `_generate_custom_token` (`main.py` 408-413). -/
def providerIdFor (provider : Option String) : Except String String :=
  if provider = some "google" then .ok "google.com"
  else if provider = some "apple" then .ok "apple.com"
  else .error "Unsupported provider"

/-- `_generate_custom_token(provider, id_token, access_token)`
(`main.py` lines 398-440); `.error` models a raised `Exception`. -/
def generate_custom_token (fenv : FirebaseEnv) (provider : Option String)
    (_id_token _access_token : Option String) : Except String String :=
  match truthyStr fenv.firebase_api_key with
  | none => .error "FIREBASE_API_KEY not configured"
  | some _ =>
    match providerIdFor provider with
    | .error e => .error e
    | .ok _provider_id =>
      if fenv.signin_status ≠ 200 then .error "Firebase sign-in failed"
      else
        match truthyStr fenv.signin_localId with
        | none => .error "No Firebase UID returned"
        | some _uid =>
          match fenv.create_custom_token with
          | none => .error "create_custom_token raised"
          | some tok => .ok tok

/-! ### Token endpoint (`auth_token`) -/

/-- The JSON object returned by a successful `/v1/auth/token` call. -/
structure TokenResponse where
  provider : Option String
  id_token : Option String
  access_token : Option String
  provider_id : Option String
  token_type : String
  expires_in : Nat
  custom_token : Option String
deriving DecidableEq

/-- `auth_token(grant_type, code, redirect_uri, use_custom_token)`
(`main.py` lines 199-243). `parse` stands for `json.loads` plus the `.get`
extraction (returning `none` when that raises); `fenv` is the Federation
Bridge environment. Returns the HTTP outcome and the new code store. -/
def auth_token (codes : Store String) (grant_type code redirect_uri : String)
    (use_custom_token : Bool) (now : Nat)
    (parse : String → Option OAuthCredentials) (fenv : FirebaseEnv) :
    Except HttpError TokenResponse × Store String :=
  if grant_type ≠ "authorization_code" then
    (.error (.badRequest "Unsupported grant type"), codes)
  else
    match truthyStr (get_auth_code codes code now) with
    | none => (.error (.badRequest "Invalid or expired code"), codes)
    | some oauth_credentials_json =>
      let codes' := delete_auth_code codes code
      match parse oauth_credentials_json with
      | none => (.error (.badRequest "Invalid OAuth credentials"), codes')
      | some creds =>
        let response : TokenResponse :=
          { provider := creds.provider
            id_token := creds.id_token
            access_token := creds.access_token
            provider_id := creds.provider_id
            token_type := "Bearer"
            expires_in := 3600
            custom_token := none }
        if use_custom_token then
          match generate_custom_token fenv creds.provider creds.id_token
              creds.access_token with
          | .ok tok => (.ok { response with custom_token := some tok }, codes')
          | .error _ => (.ok response, codes')
        else (.ok response, codes')

/-! ### Callback endpoints -/

/-- The template context rendered by a successful callback
(`auth_callback.html` with `code`, `state`, `redirect_uri`). -/
structure CallbackPage where
  code : String
  state : String
  redirect_uri : String
deriving DecidableEq

/-- `auth_callback_apple_post(code, state, error)` (`main.py` lines 127-159).
`exchange` stands for `await _exchange_apple_code(code, session_data)` and
`new_code` for the fresh `uuid4`. Returns the HTTP outcome, the session
store, and the code store. -/
def auth_callback_apple_post (sessions : Store SessionData) (codes : Store String)
    (code state : String) (error : Option String) (now : Nat)
    (exchange : String → SessionData → Except HttpError String)
    (new_code : String) :
    Except HttpError CallbackPage × Store SessionData × Store String :=
  match truthyStr error with
  | some e => (.error (.badRequest ("Auth error: " ++ e)), sessions, codes)
  | none =>
    match get_auth_session sessions state now with
    | none => (.error (.badRequest "Invalid auth session"), sessions, codes)
    | some session_data =>
      match exchange code session_data with
      | .error e => (.error e, sessions, codes)
      | .ok oauth_credentials =>
        let codes' := set_auth_code codes new_code oauth_credentials 300 now
        (.ok { code := new_code
               state := session_data.state.getD ""
               redirect_uri := session_data.redirect_uri },
         sessions, codes')

/-- `auth_callback_google(code, state, error)` (`main.py` lines 162-196);
`code`/`state` are optional query parameters and checked for truthiness
after the `error` check. -/
def auth_callback_google (sessions : Store SessionData) (codes : Store String)
    (code state error : Option String) (now : Nat)
    (exchange : String → SessionData → Except HttpError String)
    (new_code : String) :
    Except HttpError CallbackPage × Store SessionData × Store String :=
  match truthyStr error with
  | some e => (.error (.badRequest ("Auth error: " ++ e)), sessions, codes)
  | none =>
    match truthyStr code, truthyStr state with
    | some c, some st =>
      match get_auth_session sessions st now with
      | none => (.error (.badRequest "Invalid auth session"), sessions, codes)
      | some session_data =>
        match exchange c session_data with
        | .error e => (.error e, sessions, codes)
        | .ok oauth_credentials =>
          let codes' := set_auth_code codes new_code oauth_credentials 300 now
          (.ok { code := new_code
                 state := session_data.state.getD ""
                 redirect_uri := session_data.redirect_uri },
           sessions, codes')
    | _, _ => (.error (.badRequest "Missing code or state"), sessions, codes)

/-- Whether an HTTP outcome is a success (a 200 response). -/
def isOkResult {ε α : Type} : Except ε α → Bool
  | .ok _ => true
  | .error _ => false

/-! ### Store lemmas -/

theorem storeGet_storePop_self {α : Type} (s : Store α) (k : String) :
    storeGet (storePop s k) k = none := by
  induction s with
  | nil => rfl
  | cons p rest ih =>
    obtain ⟨a, e⟩ := p
    show List.lookup k (List.filter (fun q => q.1 != k) ((a, e) :: rest)) = none
    rw [List.filter_cons]
    by_cases h : a = k
    · subst h
      have hb : ((a, e).1 != a) = false := by simp
      rw [hb]
      simp only [Bool.false_eq_true, if_false]
      exact ih
    · have hb : ((a, e).1 != k) = true := by simpa [bne_iff_ne] using h
      rw [hb, if_pos rfl]
      have hk : (k == a) = false := beq_eq_false_iff_ne.mpr (Ne.symm h)
      show List.lookup k ((a, e) :: List.filter (fun q => q.1 != k) rest) = none
      rw [List.lookup_cons, hk]
      exact ih

theorem get_auth_code_delete_self (codes : Store String) (c : String) (now : Nat) :
    get_auth_code (delete_auth_code codes c) c now = none := by
  unfold get_auth_code delete_auth_code
  rw [storeGet_storePop_self]

/-- C2: for both ephemeral stores, `get` returns the stored value exactly when
the current time is strictly before the entry's expiry; a key whose entry is
at or past expiry behaves like a key that was never stored (both return
absent). -/
theorem ephemeral_get_ttl_semantics (sessions : Store SessionData)
    (codes : Store String) (k : String) (now : Nat) (v : SessionData) (j : String) :
    (get_auth_session sessions k now = some v ↔
      ∃ e, storeGet sessions k = some e ∧ e.data = v ∧ now < e.expires)
    ∧ (get_auth_code codes k now = some j ↔
      ∃ e, storeGet codes k = some e ∧ e.data = j ∧ now < e.expires)
    ∧ get_auth_session (storePop sessions k) k now = none
    ∧ get_auth_code (storePop codes k) k now = none := by
  refine ⟨?_, ?_, ?_, ?_⟩
  · unfold get_auth_session
    constructor
    · intro hv
      split at hv
      next e heq =>
        split at hv
        next hlt => exact ⟨e, heq, Option.some_inj.mp hv, hlt⟩
        next => simp at hv
      next => simp at hv
    · rintro ⟨e, heq, hd, hlt⟩
      rw [heq]
      show (if e.expires > now then some e.data else none) = some v
      rw [if_pos hlt, hd]
  · unfold get_auth_code
    constructor
    · intro hv
      split at hv
      next e heq =>
        split at hv
        next hlt => exact ⟨e, heq, Option.some_inj.mp hv, hlt⟩
        next => simp at hv
      next => simp at hv
    · rintro ⟨e, heq, hd, hlt⟩
      rw [heq]
      show (if e.expires > now then some e.data else none) = some j
      rw [if_pos hlt, hd]
  · unfold get_auth_session
    rw [storeGet_storePop_self]
  · unfold get_auth_code
    rw [storeGet_storePop_self]

/-- C9: the `/token` endpoint ignores its `redirect_uri` form parameter —
two calls differing only in `redirect_uri` yield the same response and the
same resulting code store. -/
theorem token_redirect_uri_independent (codes : Store String)
    (grant_type code r1 r2 : String) (uct : Bool) (now : Nat)
    (parse : String → Option OAuthCredentials) (fenv : FirebaseEnv) :
    auth_token codes grant_type code r1 uct now parse fenv =
    auth_token codes grant_type code r2 uct now parse fenv := rfl

/-- C1: a second `/token` call with the same code after a first successful
redemption fails with 400 "Invalid or expired code": the redeem operation
deletes the code before responding, so the redeemed code is absent from the
resulting store. -/
theorem token_code_single_use (codes codes' : Store String)
    (gt c ru ru2 : String) (uct uct2 : Bool) (now now2 : Nat)
    (parse parse2 : String → Option OAuthCredentials) (fenv fenv2 : FirebaseEnv)
    (resp : TokenResponse)
    (h : auth_token codes gt c ru uct now parse fenv = (.ok resp, codes')) :
    storeGet codes' c = none
    ∧ (auth_token codes' gt c ru2 uct2 now2 parse2 fenv2).1 =
      .error (.badRequest "Invalid or expired code") := by
  unfold auth_token at h
  split at h
  · simp at h
  next hgt =>
    have hgt' : gt = "authorization_code" := not_not.mp hgt
    split at h
    · simp at h
    next j heq =>
      split at h
      · simp at h
      next creds hp =>
        have hsnd : codes' = delete_auth_code codes c := by
          split at h
          · split at h
            · exact (congrArg Prod.snd h).symm
            · exact (congrArg Prod.snd h).symm
          · exact (congrArg Prod.snd h).symm
        subst hsnd
        refine ⟨storeGet_storePop_self codes c, ?_⟩
        unfold auth_token
        rw [if_neg hgt]
        rw [get_auth_code_delete_self]
        rfl

/-- C10: when `/token` finds a valid, unexpired code whose payload fails to
deserialize, the call returns 400 "Invalid OAuth credentials", yet the code
has already been deleted (the deletion is not rolled back), so a subsequent
`/token` call with the same code fails with "Invalid or expired code". -/
theorem token_code_consumed_on_parse_failure (codes : Store String)
    (c ru ru2 : String) (uct uct2 : Bool) (now now2 : Nat)
    (parse parse2 : String → Option OAuthCredentials) (fenv fenv2 : FirebaseEnv)
    (j : String)
    (hget : get_auth_code codes c now = some j) (hne : j ≠ "")
    (hparse : parse j = none) :
    auth_token codes "authorization_code" c ru uct now parse fenv =
      (.error (.badRequest "Invalid OAuth credentials"), delete_auth_code codes c)
    ∧ storeGet (delete_auth_code codes c) c = none
    ∧ (auth_token (delete_auth_code codes c) "authorization_code" c ru2 uct2
        now2 parse2 fenv2).1 = .error (.badRequest "Invalid or expired code") := by
  refine ⟨?_, storeGet_storePop_self codes c, ?_⟩
  · unfold auth_token
    rw [if_neg (by simp)]
    rw [hget]
    simp only [truthyStr, hne, if_neg, if_false]
    rw [hparse]
  · unfold auth_token
    rw [if_neg (by simp)]
    rw [get_auth_code_delete_self]
    rfl

theorem token_code_single_use_witness :
    auth_token [("c1", (⟨"J", 300⟩ : StoreEntry String))] "authorization_code"
        "c1" "r" false 0
        (fun _ => some ⟨some "google", some "idt", some "at", some "google.com"⟩)
        ⟨none, 200, none, none⟩ =
      (.ok ⟨some "google", some "idt", some "at", some "google.com",
        "Bearer", 3600, none⟩, [])
    ∧ (storeGet ([] : Store String) "c1" = none
      ∧ (auth_token [] "authorization_code" "c1" "r2" true 1
          (fun _ => none) ⟨none, 200, none, none⟩).1 =
        .error (.badRequest "Invalid or expired code")) := by
  have h : auth_token [("c1", (⟨"J", 300⟩ : StoreEntry String))] "authorization_code"
      "c1" "r" false 0
      (fun _ => some ⟨some "google", some "idt", some "at", some "google.com"⟩)
      ⟨none, 200, none, none⟩ =
    (.ok ⟨some "google", some "idt", some "at", some "google.com",
      "Bearer", 3600, none⟩, []) := by decide
  exact ⟨h, token_code_single_use _ _ _ _ _ _ _ _ _ _ _ _ _ _ _ h⟩

theorem token_code_consumed_on_parse_failure_witness :
    (get_auth_code [("c1", (⟨"J", 300⟩ : StoreEntry String))] "c1" 0 = some "J"
      ∧ "J" ≠ "")
    ∧ (auth_token [("c1", (⟨"J", 300⟩ : StoreEntry String))] "authorization_code"
        "c1" "r" false 0 (fun _ => none) ⟨none, 200, none, none⟩ =
        (.error (.badRequest "Invalid OAuth credentials"),
          delete_auth_code [("c1", (⟨"J", 300⟩ : StoreEntry String))] "c1")
      ∧ storeGet (delete_auth_code [("c1", (⟨"J", 300⟩ : StoreEntry String))] "c1")
          "c1" = none
      ∧ (auth_token (delete_auth_code [("c1", (⟨"J", 300⟩ : StoreEntry String))] "c1")
          "authorization_code" "c1" "r2" false 1 (fun _ => none)
          ⟨none, 200, none, none⟩).1 =
        .error (.badRequest "Invalid or expired code")) :=
  ⟨⟨by decide, by decide⟩,
    token_code_consumed_on_parse_failure _ _ _ _ _ _ _ _ _ _ _ _ "J"
      (by decide) (by decide) rfl⟩

/-- C6: on `/token` with `use_custom_token=true` and a valid code, a Federation
Bridge failure (sign-in non-200, absent account id, or token minting raising)
leaves the call a 200 response carrying the provider, `id_token` and
`access_token` fields with `custom_token` simply omitted. -/
theorem federation_failure_nonfatal (codes : Store String) (c ru : String)
    (now : Nat) (parse : String → Option OAuthCredentials) (fenv : FirebaseEnv)
    (j msg : String) (creds : OAuthCredentials)
    (hget : get_auth_code codes c now = some j) (hne : j ≠ "")
    (hparse : parse j = some creds)
    (hfail : generate_custom_token fenv creds.provider creds.id_token
      creds.access_token = .error msg) :
    (auth_token codes "authorization_code" c ru true now parse fenv).1 =
      .ok { provider := creds.provider, id_token := creds.id_token,
            access_token := creds.access_token, provider_id := creds.provider_id,
            token_type := "Bearer", expires_in := 3600, custom_token := none }
    ∧ (∀ (fenv' : FirebaseEnv) (p i a : Option String),
        fenv'.signin_status ≠ 200 ∨ truthyStr fenv'.signin_localId = none
          ∨ fenv'.create_custom_token = none →
        ∃ m, generate_custom_token fenv' p i a = .error m) := by
  constructor
  · unfold auth_token
    rw [if_neg (by simp)]
    rw [hget]
    simp only [truthyStr, hne, if_neg, if_false]
    rw [hparse]
    simp only [if_pos rfl, if_true]
    rw [hfail]
  · rintro fenv' p i a hbad
    unfold generate_custom_token
    cases hkey : truthyStr fenv'.firebase_api_key with
    | none => exact ⟨_, rfl⟩
    | some key =>
      cases hpid : providerIdFor p with
      | error e => exact ⟨_, rfl⟩
      | ok pid =>
        by_cases hst : fenv'.signin_status ≠ 200
        · rw [if_pos hst]
          exact ⟨_, rfl⟩
        · rw [if_neg hst]
          rcases hbad with hs | hl | hc
          · exact absurd hs hst
          · rw [hl]
            exact ⟨_, rfl⟩
          · cases hloc : truthyStr fenv'.signin_localId with
            | none => exact ⟨_, rfl⟩
            | some uid =>
              rw [hc]
              exact ⟨_, rfl⟩

theorem federation_failure_nonfatal_witness :
    (get_auth_code [("c1", (⟨"J", 300⟩ : StoreEntry String))] "c1" 0 = some "J"
      ∧ "J" ≠ ""
      ∧ generate_custom_token ⟨some "k", 500, none, none⟩ (some "google")
          (some "idt") (some "at") = .error "Firebase sign-in failed")
    ∧ ((auth_token [("c1", (⟨"J", 300⟩ : StoreEntry String))] "authorization_code"
        "c1" "r" true 0
        (fun _ => some ⟨some "google", some "idt", some "at", some "google.com"⟩)
        ⟨some "k", 500, none, none⟩).1 =
      .ok { provider := some "google", id_token := some "idt",
            access_token := some "at", provider_id := some "google.com",
            token_type := "Bearer", expires_in := 3600, custom_token := none }
      ∧ (∀ (fenv' : FirebaseEnv) (p i a : Option String),
          fenv'.signin_status ≠ 200 ∨ truthyStr fenv'.signin_localId = none
            ∨ fenv'.create_custom_token = none →
          ∃ m, generate_custom_token fenv' p i a = .error m)) :=
  ⟨⟨by decide, by decide, by decide⟩,
    federation_failure_nonfatal [("c1", (⟨"J", 300⟩ : StoreEntry String))]
      "c1" "r" 0
      (fun _ => some ⟨some "google", some "idt", some "at", some "google.com"⟩)
      ⟨some "k", 500, none, none⟩ "J" "Firebase sign-in failed"
      ⟨some "google", some "idt", some "at", some "google.com"⟩
      (by decide) (by decide) rfl (by decide)⟩

/-- C8: the Apple client assertion's claim set is
`{iss = team id, sub = client id, aud = Apple audience, iat = now,
exp = now + 3600}`, so `exp - iat = 3600` exactly, and the code-exchange
request embeds a freshly generated assertion: two exchange calls at
different clock times carry assertions differing in `iat`. -/
theorem apple_client_secret_claims (client_id team_id : String) (now : Nat)
    (env : Env) (code : String) (t1 t2 : Nat) (req1 req2 : AppleTokenRequest)
    (h1 : exchange_apple_request env code t1 = some req1)
    (h2 : exchange_apple_request env code t2 = some req2)
    (hne : t1 ≠ t2) :
    (generate_apple_client_secret client_id team_id now).iss = team_id
    ∧ (generate_apple_client_secret client_id team_id now).sub = client_id
    ∧ (generate_apple_client_secret client_id team_id now).aud =
      "https://appleid.apple.com"
    ∧ (generate_apple_client_secret client_id team_id now).iat = now
    ∧ (generate_apple_client_secret client_id team_id now).exp = now + 3600
    ∧ (generate_apple_client_secret client_id team_id now).exp -
      (generate_apple_client_secret client_id team_id now).iat = 3600
    ∧ req1.client_secret.iat ≠ req2.client_secret.iat := by
  refine ⟨rfl, rfl, rfl, rfl, rfl, by simp [generate_apple_client_secret], ?_⟩
  unfold exchange_apple_request at h1 h2
  split at h1
  next cid tid kid pk hcid htid hkid hpk =>
    rw [hcid, htid, hkid, hpk] at h2
    have e1 : req1.client_secret.iat = t1 := by
      rw [Option.some_inj] at h1
      rw [h1.symm]
      rfl
    have e2 : req2.client_secret.iat = t2 := by
      rw [Option.some_inj] at h2
      rw [h2.symm]
      rfl
    rw [e1, e2]
    exact hne
  next => simp at h1

theorem apple_client_secret_claims_witness :
    (exchange_apple_request
        ⟨some "cid", some "tid", some "kid", some "pk", none, none, some "http://localhost:8080"⟩
        "abc" 0 =
      some ⟨"cid", generate_apple_client_secret "cid" "tid" 0, "abc",
        "authorization_code", "http://localhost:8080/v1/auth/callback/apple"⟩
      ∧ exchange_apple_request
        ⟨some "cid", some "tid", some "kid", some "pk", none, none, some "http://localhost:8080"⟩
        "abc" 7 =
      some ⟨"cid", generate_apple_client_secret "cid" "tid" 7, "abc",
        "authorization_code", "http://localhost:8080/v1/auth/callback/apple"⟩
      ∧ (0 : Nat) ≠ 7)
    ∧ ((generate_apple_client_secret "cid" "tid" 5).iss = "tid"
      ∧ (generate_apple_client_secret "cid" "tid" 5).sub = "cid"
      ∧ (generate_apple_client_secret "cid" "tid" 5).aud =
        "https://appleid.apple.com"
      ∧ (generate_apple_client_secret "cid" "tid" 5).iat = 5
      ∧ (generate_apple_client_secret "cid" "tid" 5).exp = 5 + 3600
      ∧ (generate_apple_client_secret "cid" "tid" 5).exp -
        (generate_apple_client_secret "cid" "tid" 5).iat = 3600
      ∧ (generate_apple_client_secret "cid" "tid" 0).iat ≠
        (generate_apple_client_secret "cid" "tid" 7).iat) :=
  ⟨⟨by decide, by decide, by decide⟩,
    apple_client_secret_claims "cid" "tid" 5
      ⟨some "cid", some "tid", some "kid", some "pk", none, none,
        some "http://localhost:8080"⟩
      "abc" 0 7
      ⟨"cid", generate_apple_client_secret "cid" "tid" 0, "abc",
        "authorization_code", "http://localhost:8080/v1/auth/callback/apple"⟩
      ⟨"cid", generate_apple_client_secret "cid" "tid" 7, "abc",
        "authorization_code", "http://localhost:8080/v1/auth/callback/apple"⟩
      (by decide) (by decide) (by decide)⟩

/-- C3 fails on the code: a successful Google callback does not remove the
session — a later lookup of the same session id still returns the session
data, and a second callback carrying the same `state` succeeds again. -/
theorem callback_session_not_removed_cex :
    (auth_callback_google
        [("s1", (⟨⟨"google", "app://cb", none⟩, 300⟩ : StoreEntry SessionData))]
        [] (some "abc") (some "s1") none 10
        (fun _ _ => .ok "payload") "c1").1 = .ok ⟨"c1", "", "app://cb"⟩
    ∧ get_auth_session
        (auth_callback_google
          [("s1", (⟨⟨"google", "app://cb", none⟩, 300⟩ : StoreEntry SessionData))]
          [] (some "abc") (some "s1") none 10
          (fun _ _ => .ok "payload") "c1").2.1
        "s1" 10 = some ⟨"google", "app://cb", none⟩
    ∧ (auth_callback_google
        (auth_callback_google
          [("s1", (⟨⟨"google", "app://cb", none⟩, 300⟩ : StoreEntry SessionData))]
          [] (some "abc") (some "s1") none 10
          (fun _ _ => .ok "payload") "c1").2.1
        (auth_callback_google
          [("s1", (⟨⟨"google", "app://cb", none⟩, 300⟩ : StoreEntry SessionData))]
          [] (some "abc") (some "s1") none 10
          (fun _ _ => .ok "payload") "c1").2.2
        (some "abc") (some "s1") none 20
        (fun _ _ => .ok "payload") "c2").1 = .ok ⟨"c2", "", "app://cb"⟩ := by
  decide

theorem auth_callback_google_sessions_unchanged (sessions : Store SessionData)
    (codes : Store String) (code state error : Option String) (now : Nat)
    (exchange : String → SessionData → Except HttpError String) (new_code : String) :
    (auth_callback_google sessions codes code state error now
      exchange new_code).2.1 = sessions := by
  unfold auth_callback_google
  repeat' split
  all_goals rfl

theorem auth_callback_apple_sessions_unchanged (sessions : Store SessionData)
    (codes : Store String) (code state : String) (error : Option String)
    (now : Nat) (exchange : String → SessionData → Except HttpError String)
    (new_code : String) :
    (auth_callback_apple_post sessions codes code state error now
      exchange new_code).2.1 = sessions := by
  unfold auth_callback_apple_post
  repeat' split
  all_goals rfl

theorem auth_callback_google_ok_transfer (sessions : Store SessionData)
    (codes codes2 : Store String) (code state error : Option String) (now : Nat)
    (exchange : String → SessionData → Except HttpError String)
    (nc nc2 : String)
    (h : isOkResult (auth_callback_google sessions codes code state error now
      exchange nc).1 = true) :
    isOkResult (auth_callback_google sessions codes2 code state error now
      exchange nc2).1 = true := by
  unfold auth_callback_google at h ⊢
  cases heq : truthyStr error with
  | some e => simp only [heq] at h; simp [isOkResult] at h
  | none =>
    simp only [heq] at h ⊢
    cases heqc : truthyStr code with
    | none => simp only [heqc] at h; simp [isOkResult] at h
    | some c =>
      cases heqs : truthyStr state with
      | none => simp only [heqc, heqs] at h; simp [isOkResult] at h
      | some st =>
        simp only [heqc, heqs] at h ⊢
        cases heqg : get_auth_session sessions st now with
        | none => simp only [heqg] at h; simp [isOkResult] at h
        | some sd =>
          simp only [heqg] at h ⊢
          cases heqe : exchange c sd with
          | error e => simp only [heqe] at h; simp [isOkResult] at h
          | ok cred => simp only [heqe]; rfl

theorem auth_callback_apple_ok_transfer (sessions : Store SessionData)
    (codes codes2 : Store String) (code state : String) (error : Option String)
    (now : Nat) (exchange : String → SessionData → Except HttpError String)
    (nc nc2 : String)
    (h : isOkResult (auth_callback_apple_post sessions codes code state error now
      exchange nc).1 = true) :
    isOkResult (auth_callback_apple_post sessions codes2 code state error now
      exchange nc2).1 = true := by
  unfold auth_callback_apple_post at h ⊢
  cases heq : truthyStr error with
  | some e => simp only [heq] at h; simp [isOkResult] at h
  | none =>
    simp only [heq] at h ⊢
    cases heqg : get_auth_session sessions state now with
    | none => simp only [heqg] at h; simp [isOkResult] at h
    | some sd =>
      simp only [heqg] at h ⊢
      cases heqe : exchange code sd with
      | error e => simp only [heqe] at h; simp [isOkResult] at h
      | ok cred => simp only [heqe]; rfl

/-- C3 amended: a provider callback that successfully resolves a Session by
its `state` does NOT remove it — the session store is left unchanged by both
callback handlers, and a second callback carrying the same `state` (with any
code store and any fresh code) succeeds rather than failing with 400. -/
theorem callback_session_persists (sessions : Store SessionData)
    (codes codes2 : Store String) (ac ast : String) (aerr : Option String)
    (gc gst gerr : Option String) (now : Nat)
    (exchA exchG : String → SessionData → Except HttpError String)
    (nc nc2 : String)
    (hg : isOkResult (auth_callback_google sessions codes gc gst gerr now
      exchG nc).1 = true)
    (ha : isOkResult (auth_callback_apple_post sessions codes ac ast aerr now
      exchA nc).1 = true) :
    (auth_callback_google sessions codes gc gst gerr now exchG nc).2.1 = sessions
    ∧ (auth_callback_apple_post sessions codes ac ast aerr now exchA nc).2.1 =
      sessions
    ∧ isOkResult (auth_callback_google sessions codes2 gc gst gerr now
        exchG nc2).1 = true
    ∧ isOkResult (auth_callback_apple_post sessions codes2 ac ast aerr now
        exchA nc2).1 = true :=
  ⟨auth_callback_google_sessions_unchanged _ _ _ _ _ _ _ _,
    auth_callback_apple_sessions_unchanged _ _ _ _ _ _ _ _,
    auth_callback_google_ok_transfer _ _ _ _ _ _ _ _ _ _ hg,
    auth_callback_apple_ok_transfer _ _ _ _ _ _ _ _ _ _ ha⟩

theorem callback_session_persists_witness :
    (isOkResult (auth_callback_google
        [("s1", (⟨⟨"google", "app://cb", none⟩, 300⟩ : StoreEntry SessionData))]
        [] (some "abc") (some "s1") none 10
        (fun _ _ => .ok "payload") "c1").1 = true
      ∧ isOkResult (auth_callback_apple_post
        [("s1", (⟨⟨"google", "app://cb", none⟩, 300⟩ : StoreEntry SessionData))]
        [] "abc" "s1" none 10
        (fun _ _ => .ok "payload") "c1").1 = true)
    ∧ ((auth_callback_google
        [("s1", (⟨⟨"google", "app://cb", none⟩, 300⟩ : StoreEntry SessionData))]
        [] (some "abc") (some "s1") none 10
        (fun _ _ => .ok "payload") "c1").2.1 =
      [("s1", (⟨⟨"google", "app://cb", none⟩, 300⟩ : StoreEntry SessionData))]
      ∧ (auth_callback_apple_post
        [("s1", (⟨⟨"google", "app://cb", none⟩, 300⟩ : StoreEntry SessionData))]
        [] "abc" "s1" none 10
        (fun _ _ => .ok "payload") "c1").2.1 =
      [("s1", (⟨⟨"google", "app://cb", none⟩, 300⟩ : StoreEntry SessionData))]
      ∧ isOkResult (auth_callback_google
        [("s1", (⟨⟨"google", "app://cb", none⟩, 300⟩ : StoreEntry SessionData))]
        [("x", (⟨"y", 99⟩ : StoreEntry String))] (some "abc") (some "s1") none 10
        (fun _ _ => .ok "payload") "c2").1 = true
      ∧ isOkResult (auth_callback_apple_post
        [("s1", (⟨⟨"google", "app://cb", none⟩, 300⟩ : StoreEntry SessionData))]
        [("x", (⟨"y", 99⟩ : StoreEntry String))] "abc" "s1" none 10
        (fun _ _ => .ok "payload") "c2").1 = true) :=
  ⟨⟨by decide, by decide⟩,
    callback_session_persists
      [("s1", (⟨⟨"google", "app://cb", none⟩, 300⟩ : StoreEntry SessionData))]
      [] [("x", (⟨"y", 99⟩ : StoreEntry String))]
      "abc" "s1" none (some "abc") (some "s1") none 10
      (fun _ _ => .ok "payload") (fun _ _ => .ok "payload") "c1" "c2"
      (by decide) (by decide)⟩

/-- C7 fails on the code: the handlers test the `error` parameter for Python
truthiness, so a present-but-empty `error=""` does not short-circuit — the
Google callback proceeds to the session lookup, succeeds, and mutates the
code store. -/
theorem callback_empty_error_proceeds_cex :
    (auth_callback_google
        [("s1", (⟨⟨"google", "app://cb", none⟩, 300⟩ : StoreEntry SessionData))]
        [] (some "abc") (some "s1") (some "") 10
        (fun _ _ => .ok "payload") "c1").1 = .ok ⟨"c1", "", "app://cb"⟩
    ∧ (auth_callback_google
        [("s1", (⟨⟨"google", "app://cb", none⟩, 300⟩ : StoreEntry SessionData))]
        [] (some "abc") (some "s1") (some "") 10
        (fun _ _ => .ok "payload") "c1").2.2 =
      [("c1", (⟨"payload", 310⟩ : StoreEntry String))] := by
  decide

/-- C7 amended: whenever the provider's `error` parameter is present and
non-empty, both callback handlers return 400 carrying the provider's error
text, and both ephemeral stores are unchanged. -/
theorem callback_error_short_circuit (sessions : Store SessionData)
    (codes : Store String) (ac ast : String) (gc gst : Option String)
    (e : String) (now : Nat)
    (exchA exchG : String → SessionData → Except HttpError String)
    (ncA ncG : String) (he : e ≠ "") :
    auth_callback_apple_post sessions codes ac ast (some e) now exchA ncA =
      (.error (.badRequest ("Auth error: " ++ e)), sessions, codes)
    ∧ auth_callback_google sessions codes gc gst (some e) now exchG ncG =
      (.error (.badRequest ("Auth error: " ++ e)), sessions, codes) := by
  constructor
  · unfold auth_callback_apple_post
    simp only [truthyStr, he, if_neg, if_false]
  · unfold auth_callback_google
    simp only [truthyStr, he, if_neg, if_false]

theorem callback_error_short_circuit_witness :
    ("access_denied" : String) ≠ ""
    ∧ (auth_callback_apple_post
        [("s1", (⟨⟨"apple", "app://cb", none⟩, 300⟩ : StoreEntry SessionData))]
        [] "abc" "s1" (some "access_denied") 10
        (fun _ _ => .ok "payload") "c1" =
      (.error (.badRequest ("Auth error: " ++ "access_denied")),
        [("s1", (⟨⟨"apple", "app://cb", none⟩, 300⟩ : StoreEntry SessionData))], [])
      ∧ auth_callback_google
        [("s1", (⟨⟨"apple", "app://cb", none⟩, 300⟩ : StoreEntry SessionData))]
        [] (some "abc") (some "s1") (some "access_denied") 10
        (fun _ _ => .ok "payload") "c1" =
      (.error (.badRequest ("Auth error: " ++ "access_denied")),
        [("s1", (⟨⟨"apple", "app://cb", none⟩, 300⟩ : StoreEntry SessionData))], [])) :=
  ⟨by decide,
    callback_error_short_circuit
      [("s1", (⟨⟨"apple", "app://cb", none⟩, 300⟩ : StoreEntry SessionData))]
      [] "abc" "s1" (some "abc") (some "s1") "access_denied" 10
      (fun _ _ => .ok "payload") (fun _ _ => .ok "payload") "c1" "c1"
      (by decide)⟩

/-! ### Query-string parsing lemmas -/

theorem afterChar_append (sep : Char) (l1 l2 : List Char) (h : sep ∉ l1) :
    afterChar sep (l1 ++ sep :: l2) = l2 := by
  induction l1 with
  | nil => simp [afterChar]
  | cons c rest ih =>
    have hcs : ¬ (c = sep) := by
      intro hc; subst hc; exact h (List.mem_cons_self c rest)
    have h' : sep ∉ rest := fun hm => h (List.mem_cons_of_mem c hm)
    show afterChar sep (c :: (rest ++ sep :: l2)) = l2
    simp only [afterChar]
    rw [if_neg hcs]
    exact ih h'

theorem beforeChar_append (sep : Char) (l1 l2 : List Char) (h : sep ∉ l1) :
    beforeChar sep (l1 ++ sep :: l2) = l1 := by
  induction l1 with
  | nil => simp [beforeChar]
  | cons c rest ih =>
    have hcs : ¬ (c = sep) := by
      intro hc; subst hc; exact h (List.mem_cons_self c rest)
    have h' : sep ∉ rest := fun hm => h (List.mem_cons_of_mem c hm)
    show beforeChar sep (c :: (rest ++ sep :: l2)) = c :: rest
    simp only [beforeChar]
    rw [if_neg hcs]
    exact congrArg (c :: ·) (ih h')

theorem splitOnCharAux_no_sep (sep : Char) (l : List Char) : ∀ acc : List Char,
    sep ∉ l → splitOnCharAux sep l acc = [acc.reverse ++ l] := by
  induction l with
  | nil => intro acc _; simp [splitOnCharAux]
  | cons c rest ih =>
    intro acc h
    have hcs : ¬ (c = sep) := by
      intro hc; subst hc; exact h (List.mem_cons_self c rest)
    have h' : sep ∉ rest := fun hm => h (List.mem_cons_of_mem c hm)
    simp only [splitOnCharAux]
    rw [if_neg hcs]
    rw [ih (c :: acc) h']
    simp [List.append_assoc]

theorem splitOnCharAux_append (sep : Char) (l1 l2 : List Char) :
    ∀ acc : List Char, sep ∉ l1 →
    splitOnCharAux sep (l1 ++ sep :: l2) acc =
      (acc.reverse ++ l1) :: splitOnCharAux sep l2 [] := by
  induction l1 with
  | nil => intro acc _; simp [splitOnCharAux]
  | cons c rest ih =>
    intro acc h
    have hcs : ¬ (c = sep) := by
      intro hc; subst hc; exact h (List.mem_cons_self c rest)
    have h' : sep ∉ rest := fun hm => h (List.mem_cons_of_mem c hm)
    show splitOnCharAux sep (c :: (rest ++ sep :: l2)) acc =
      (acc.reverse ++ c :: rest) :: splitOnCharAux sep l2 []
    simp only [splitOnCharAux]
    rw [if_neg hcs]
    rw [ih (c :: acc) h']
    simp [List.append_assoc]

/-! ### Percent-encoding lemmas -/

theorem hexUpperDigit_safe (n : Nat) : quoteSafe (hexUpperDigit n) = true := by
  unfold hexUpperDigit
  by_cases h : n < 16
  · interval_cases n <;> decide
  · rw [List.getD_eq_default]
    · decide
    · simpa using Nat.le_of_not_lt h

theorem quoteChar_safe (a c : Char) (h : c ∈ quoteChar a) :
    quoteSafe c = true ∨ c = '%' := by
  unfold quoteChar at h
  split at h
  next hsafe =>
    rw [List.mem_singleton.mp h]
    exact Or.inl hsafe
  next =>
    simp only [List.mem_cons, List.mem_singleton, List.not_mem_nil, or_false] at h
    rcases h with rfl | rfl | rfl
    · exact Or.inr rfl
    · exact Or.inl (hexUpperDigit_safe _)
    · exact Or.inl (hexUpperDigit_safe _)

theorem quote_data_safe (s : String) (c : Char) (h : c ∈ (quote s).data) :
    quoteSafe c = true ∨ c = '%' := by
  unfold quote at h
  obtain ⟨a, _, hca⟩ := List.mem_flatMap.mp h
  exact quoteChar_safe a c hca

theorem amp_not_in_quote (s : String) : '&' ∉ (quote s).data := by
  intro h
  rcases quote_data_safe s '&' h with hs | hp
  · exact absurd hs (by decide)
  · exact absurd hp (by decide)

/-! ### Query parameters of the two authorize URLs -/

theorem apple_queryParams (cid base sid : String)
    (hc : '&' ∉ cid.data) (hb : '&' ∉ base.data) (hs : '&' ∉ sid.data) :
    queryParams (appleAuthUrl cid base sid) =
      [("client_id", cid),
       ("redirect_uri", base ++ "/v1/auth/callback/apple"),
       ("response_type", "code"),
       ("scope", "name email"),
       ("response_mode", "form_post"),
       ("state", sid)] := by
  have hdata : (appleAuthUrl cid base sid).data =
      "https://appleid.apple.com/auth/authorize".data ++ '?' ::
      (("client_id=".data ++ cid.data) ++ '&' ::
       (("redirect_uri=".data ++ (base.data ++ "/v1/auth/callback/apple".data)) ++ '&' ::
        ("response_type=code".data ++ '&' ::
         ("scope=name email".data ++ '&' ::
          ("response_mode=form_post".data ++ '&' ::
           ("state=".data ++ sid.data)))))) := by
    show (("https://appleid.apple.com/auth/authorize?" ++ "client_id=" ++ cid ++ "&" ++
      "redirect_uri=" ++ (base ++ "/v1/auth/callback/apple") ++ "&" ++
      "response_type=code&" ++ "scope=name email&" ++ "response_mode=form_post&" ++
      "state=" ++ sid).data) = _
    simp only [String.data_append]
    simp [List.append_assoc]
  have h1 : '&' ∉ "client_id=".data ++ cid.data := by
    intro hm
    rcases List.mem_append.mp hm with hx | hx
    · exact absurd hx (by decide)
    · exact hc hx
  have h2 : '&' ∉ "redirect_uri=".data ++ (base.data ++ "/v1/auth/callback/apple".data) := by
    intro hm
    rcases List.mem_append.mp hm with hx | hx
    · exact absurd hx (by decide)
    · rcases List.mem_append.mp hx with hy | hy
      · exact hb hy
      · exact absurd hy (by decide)
  have h6 : '&' ∉ "state=".data ++ sid.data := by
    intro hm
    rcases List.mem_append.mp hm with hx | hx
    · exact absurd hx (by decide)
    · exact hs hx
  have hsegs : splitOnCharAux '&' (afterChar '?' (appleAuthUrl cid base sid).data) [] =
      ["client_id=".data ++ cid.data,
       "redirect_uri=".data ++ (base.data ++ "/v1/auth/callback/apple".data),
       "response_type=code".data,
       "scope=name email".data,
       "response_mode=form_post".data,
       "state=".data ++ sid.data] := by
    rw [hdata]
    rw [afterChar_append _ _ _ (by decide)]
    rw [splitOnCharAux_append _ _ _ [] h1]
    rw [splitOnCharAux_append _ _ _ [] h2]
    rw [splitOnCharAux_append _ _ _ [] (by decide)]
    rw [splitOnCharAux_append _ _ _ [] (by decide)]
    rw [splitOnCharAux_append _ _ _ [] (by decide)]
    rw [splitOnCharAux_no_sep _ _ [] h6]
    simp
  show (splitOnCharAux '&' (afterChar '?' (appleAuthUrl cid base sid).data) []).map
      (fun p => (String.mk (beforeChar '=' p), String.mk (afterChar '=' p))) = _
  rw [hsegs]
  simp only [List.map]
  have k1 : beforeChar '=' ("client_id=".data ++ cid.data) = "client_id".data := by
    rw [show ("client_id=".data ++ cid.data) = "client_id".data ++ '=' :: cid.data from rfl]
    exact beforeChar_append _ _ _ (by decide)
  have v1 : afterChar '=' ("client_id=".data ++ cid.data) = cid.data := by
    rw [show ("client_id=".data ++ cid.data) = "client_id".data ++ '=' :: cid.data from rfl]
    exact afterChar_append _ _ _ (by decide)
  have k2 : beforeChar '='
      ("redirect_uri=".data ++ (base.data ++ "/v1/auth/callback/apple".data)) =
      "redirect_uri".data := by
    rw [show ("redirect_uri=".data ++ (base.data ++ "/v1/auth/callback/apple".data)) =
      "redirect_uri".data ++ '=' :: (base.data ++ "/v1/auth/callback/apple".data) from rfl]
    exact beforeChar_append _ _ _ (by decide)
  have v2 : afterChar '='
      ("redirect_uri=".data ++ (base.data ++ "/v1/auth/callback/apple".data)) =
      base.data ++ "/v1/auth/callback/apple".data := by
    rw [show ("redirect_uri=".data ++ (base.data ++ "/v1/auth/callback/apple".data)) =
      "redirect_uri".data ++ '=' :: (base.data ++ "/v1/auth/callback/apple".data) from rfl]
    exact afterChar_append _ _ _ (by decide)
  have k6 : beforeChar '=' ("state=".data ++ sid.data) = "state".data := by
    rw [show ("state=".data ++ sid.data) = "state".data ++ '=' :: sid.data from rfl]
    exact beforeChar_append _ _ _ (by decide)
  have v6 : afterChar '=' ("state=".data ++ sid.data) = sid.data := by
    rw [show ("state=".data ++ sid.data) = "state".data ++ '=' :: sid.data from rfl]
    exact afterChar_append _ _ _ (by decide)
  rw [k1, v1, k2, v2, k6, v6]
  have pmid : (String.mk (beforeChar '=' "response_type=code".data),
      String.mk (afterChar '=' "response_type=code".data)) =
      (("response_type" : String), ("code" : String)) := by decide
  have pmid2 : (String.mk (beforeChar '=' "scope=name email".data),
      String.mk (afterChar '=' "scope=name email".data)) =
      (("scope" : String), ("name email" : String)) := by decide
  have pmid3 : (String.mk (beforeChar '=' "response_mode=form_post".data),
      String.mk (afterChar '=' "response_mode=form_post".data)) =
      (("response_mode" : String), ("form_post" : String)) := by decide
  rw [pmid, pmid2, pmid3]
  rfl

theorem google_queryParams (cid base sid : String) :
    queryParams (googleAuthUrl cid base sid) =
      [("client_id", quote cid),
       ("redirect_uri", quote (base ++ "/v1/auth/callback/google")),
       ("response_type", "code"),
       ("scope", quote "openid email profile"),
       ("state", quote sid)] := by
  have gdata : (googleAuthUrl cid base sid).data =
      "https://accounts.google.com/o/oauth2/v2/auth".data ++ '?' ::
      (("client_id=".data ++ (quote cid).data) ++ '&' ::
       (("redirect_uri=".data ++ (quote (base ++ "/v1/auth/callback/google")).data) ++ '&' ::
        ("response_type=code".data ++ '&' ::
         (("scope=".data ++ (quote "openid email profile").data) ++ '&' ::
          ("state=".data ++ (quote sid).data))))) := by
    show (("https://accounts.google.com/o/oauth2/v2/auth?" ++ "client_id=" ++ quote cid ++
      "&" ++ "redirect_uri=" ++ quote (base ++ "/v1/auth/callback/google") ++ "&" ++
      "response_type=code&" ++ "scope=" ++ quote "openid email profile" ++ "&" ++
      "state=" ++ quote sid).data) = _
    simp only [String.data_append]
    simp [List.append_assoc]
  have h1 : '&' ∉ "client_id=".data ++ (quote cid).data := by
    intro hm
    rcases List.mem_append.mp hm with hx | hx
    · exact absurd hx (by decide)
    · exact amp_not_in_quote cid hx
  have h2 : '&' ∉ "redirect_uri=".data ++
      (quote (base ++ "/v1/auth/callback/google")).data := by
    intro hm
    rcases List.mem_append.mp hm with hx | hx
    · exact absurd hx (by decide)
    · exact amp_not_in_quote _ hx
  have h4 : '&' ∉ "scope=".data ++ (quote "openid email profile").data := by
    intro hm
    rcases List.mem_append.mp hm with hx | hx
    · exact absurd hx (by decide)
    · exact amp_not_in_quote _ hx
  have h5 : '&' ∉ "state=".data ++ (quote sid).data := by
    intro hm
    rcases List.mem_append.mp hm with hx | hx
    · exact absurd hx (by decide)
    · exact amp_not_in_quote sid hx
  have hsegs : splitOnCharAux '&' (afterChar '?' (googleAuthUrl cid base sid).data) [] =
      ["client_id=".data ++ (quote cid).data,
       "redirect_uri=".data ++ (quote (base ++ "/v1/auth/callback/google")).data,
       "response_type=code".data,
       "scope=".data ++ (quote "openid email profile").data,
       "state=".data ++ (quote sid).data] := by
    rw [gdata]
    rw [afterChar_append _ _ _ (by decide)]
    rw [splitOnCharAux_append _ _ _ [] h1]
    rw [splitOnCharAux_append _ _ _ [] h2]
    rw [splitOnCharAux_append _ _ _ [] (by decide)]
    rw [splitOnCharAux_append _ _ _ [] h4]
    rw [splitOnCharAux_no_sep _ _ [] h5]
    simp
  show (splitOnCharAux '&' (afterChar '?' (googleAuthUrl cid base sid).data) []).map
      (fun p => (String.mk (beforeChar '=' p), String.mk (afterChar '=' p))) = _
  rw [hsegs]
  simp only [List.map]
  have k1 : beforeChar '=' ("client_id=".data ++ (quote cid).data) =
      "client_id".data := by
    rw [show ("client_id=".data ++ (quote cid).data) =
      "client_id".data ++ '=' :: (quote cid).data from rfl]
    exact beforeChar_append _ _ _ (by decide)
  have v1 : afterChar '=' ("client_id=".data ++ (quote cid).data) =
      (quote cid).data := by
    rw [show ("client_id=".data ++ (quote cid).data) =
      "client_id".data ++ '=' :: (quote cid).data from rfl]
    exact afterChar_append _ _ _ (by decide)
  have k2 : beforeChar '=' ("redirect_uri=".data ++
      (quote (base ++ "/v1/auth/callback/google")).data) = "redirect_uri".data := by
    rw [show ("redirect_uri=".data ++ (quote (base ++ "/v1/auth/callback/google")).data) =
      "redirect_uri".data ++ '=' ::
        (quote (base ++ "/v1/auth/callback/google")).data from rfl]
    exact beforeChar_append _ _ _ (by decide)
  have v2 : afterChar '=' ("redirect_uri=".data ++
      (quote (base ++ "/v1/auth/callback/google")).data) =
      (quote (base ++ "/v1/auth/callback/google")).data := by
    rw [show ("redirect_uri=".data ++ (quote (base ++ "/v1/auth/callback/google")).data) =
      "redirect_uri".data ++ '=' ::
        (quote (base ++ "/v1/auth/callback/google")).data from rfl]
    exact afterChar_append _ _ _ (by decide)
  have k4 : beforeChar '=' ("scope=".data ++ (quote "openid email profile").data) =
      "scope".data := by
    rw [show ("scope=".data ++ (quote "openid email profile").data) =
      "scope".data ++ '=' :: (quote "openid email profile").data from rfl]
    exact beforeChar_append _ _ _ (by decide)
  have v4 : afterChar '=' ("scope=".data ++ (quote "openid email profile").data) =
      (quote "openid email profile").data := by
    rw [show ("scope=".data ++ (quote "openid email profile").data) =
      "scope".data ++ '=' :: (quote "openid email profile").data from rfl]
    exact afterChar_append _ _ _ (by decide)
  have k5 : beforeChar '=' ("state=".data ++ (quote sid).data) = "state".data := by
    rw [show ("state=".data ++ (quote sid).data) =
      "state".data ++ '=' :: (quote sid).data from rfl]
    exact beforeChar_append _ _ _ (by decide)
  have v5 : afterChar '=' ("state=".data ++ (quote sid).data) = (quote sid).data := by
    rw [show ("state=".data ++ (quote sid).data) =
      "state".data ++ '=' :: (quote sid).data from rfl]
    exact afterChar_append _ _ _ (by decide)
  rw [k1, v1, k2, v2, k4, v4, k5, v5]
  have pmid : (String.mk (beforeChar '=' "response_type=code".data),
      String.mk (afterChar '=' "response_type=code".data)) =
      (("response_type" : String), ("code" : String)) := by decide
  rw [pmid]

/-! ### Percent-decoding round trip -/

theorem unquoteChars_quoteChar (c : Char) (rest : List Char) (hascii : c.toNat < 128) :
    unquoteChars (quoteChar c ++ rest) = c :: unquoteChars rest := by
  unfold quoteChar
  by_cases hsafe : quoteSafe c
  · rw [if_pos hsafe]
    have hne : ¬ (c = '%') := by
      intro hc
      rw [hc] at hsafe
      exact absurd hsafe (by decide)
    rcases rest with _ | ⟨h1, rest1⟩
    · simp [unquoteChars]
    · rcases rest1 with _ | ⟨h2, rest2⟩
      · simp [unquoteChars]
      · show unquoteChars (c :: h1 :: h2 :: rest2) = c :: unquoteChars (h1 :: h2 :: rest2)
        simp only [unquoteChars]
        rw [if_neg hne]
  · rw [if_neg hsafe]
    show unquoteChars ('%' :: hexUpperDigit (c.toNat / 16 % 16) ::
      hexUpperDigit (c.toNat % 16) :: rest) = c :: unquoteChars rest
    simp only [unquoteChars, if_pos rfl]
    have hx : ∀ n, n < 16 → hexVal (hexUpperDigit n) = n := by decide
    have hd : c.toNat / 16 % 16 = c.toNat / 16 :=
      Nat.mod_eq_of_lt (Nat.lt_of_lt_of_le (Nat.div_lt_of_lt_mul
        (by omega : c.toNat < 16 * 16)) (by omega))
    rw [hx _ (Nat.mod_lt _ (by omega)), hx _ (Nat.mod_lt _ (by omega)), hd]
    rw [Nat.div_add_mod c.toNat 16]
    rw [Char.ofNat_toNat]
    simp only [if_true]

theorem unquoteChars_flatMap (l : List Char) (hl : ∀ c ∈ l, c.toNat < 128) :
    unquoteChars (l.flatMap quoteChar) = l := by
  induction l with
  | nil => rfl
  | cons c t ih =>
    show unquoteChars (quoteChar c ++ t.flatMap quoteChar) = c :: t
    rw [unquoteChars_quoteChar c _ (hl c (List.mem_cons_self c t))]
    rw [ih fun x hx => hl x (List.mem_cons_of_mem c hx)]

theorem unquote_quote (s : String) (h : ∀ c ∈ s.data, c.toNat < 128) :
    unquote (quote s) = s := by
  show String.mk (unquoteChars (s.data.flatMap quoteChar)) = s
  rw [unquoteChars_flatMap s.data h]

/-- C4 fails on the code: in the Apple authorize URL no query parameter is
percent-encoded — at a concrete configuration the `scope` parameter value is
the raw string "name email", whose space requires percent-encoding. -/
theorem apple_scope_unencoded_cex :
    getQueryParam (appleAuthUrl "client123" "http://localhost:8080" "sess-1")
      "scope" = some "name email"
    ∧ ' ' ∈ ("name email" : String).data
    ∧ quoteSafe ' ' = false := by
  refine ⟨by decide, by decide, by decide⟩

/-- C4 amended: only the Google adapter percent-encodes its query parameters —
every parameter value of the Google authorize URL consists solely of
quote-safe characters and percent signs (in particular no raw space) — while
the Apple adapter does not encode at all: its `scope` parameter value is the
raw string "name email" containing a space that requires percent-encoding. -/
theorem authorize_url_encoding (cid base sid : String)
    (hc : '&' ∉ cid.data) (hb : '&' ∉ base.data) (hs : '&' ∉ sid.data) :
    (∀ kv ∈ queryParams (googleAuthUrl cid base sid), ∀ ch ∈ kv.2.data,
      quoteSafe ch = true ∨ ch = '%')
    ∧ getQueryParam (appleAuthUrl cid base sid) "scope" = some "name email"
    ∧ ' ' ∈ ("name email" : String).data
    ∧ quoteSafe ' ' = false := by
  refine ⟨?_, ?_, by decide, by decide⟩
  · intro kv hkv ch hch
    rw [google_queryParams] at hkv
    simp only [List.mem_cons, List.not_mem_nil, or_false] at hkv
    rcases hkv with rfl | rfl | rfl | rfl | rfl
    · exact quote_data_safe _ _ hch
    · exact quote_data_safe _ _ hch
    · have hcode : ∀ x ∈ ("code" : String).data, quoteSafe x = true := by decide
      exact Or.inl (hcode ch hch)
    · exact quote_data_safe _ _ hch
    · exact quote_data_safe _ _ hch
  · unfold getQueryParam
    rw [apple_queryParams cid base sid hc hb hs]
    simp [List.lookup]

theorem authorize_url_encoding_witness :
    ('&' ∉ ("client123" : String).data
      ∧ '&' ∉ ("http://localhost:8080" : String).data
      ∧ '&' ∉ ("sess-1" : String).data)
    ∧ ((∀ kv ∈ queryParams (googleAuthUrl "client123" "http://localhost:8080" "sess-1"),
        ∀ ch ∈ kv.2.data, quoteSafe ch = true ∨ ch = '%')
      ∧ getQueryParam (appleAuthUrl "client123" "http://localhost:8080" "sess-1")
        "scope" = some "name email"
      ∧ ' ' ∈ ("name email" : String).data
      ∧ quoteSafe ' ' = false) :=
  ⟨⟨by decide, by decide, by decide⟩,
    authorize_url_encoding "client123" "http://localhost:8080" "sess-1"
      (by decide) (by decide) (by decide)⟩

/-- C5: for both providers the authorize URL carries `state` equal to the
session id and `redirect_uri` equal to the configured callback URL (base URL
plus the provider-specific path) — raw for Apple, percent-decoded for Google —
and the authorize endpoint's redirect URL is independent of the
client-supplied `redirect_uri`. -/
theorem authorize_url_state_and_callback (cid base sid : String)
    (hc : '&' ∉ cid.data) (hb : '&' ∉ base.data) (hs : '&' ∉ sid.data)
    (hab : ∀ c ∈ base.data, c.toNat < 128) (has : ∀ c ∈ sid.data, c.toNat < 128) :
    getQueryParam (appleAuthUrl cid base sid) "state" = some sid
    ∧ getQueryParam (appleAuthUrl cid base sid) "redirect_uri" =
      some (base ++ "/v1/auth/callback/apple")
    ∧ getQueryParamDecoded (googleAuthUrl cid base sid) "state" = some sid
    ∧ getQueryParamDecoded (googleAuthUrl cid base sid) "redirect_uri" =
      some (base ++ "/v1/auth/callback/google")
    ∧ (∀ (env : Env) (sessions : Store SessionData) (provider r1 r2 : String)
        (st : Option String) (now : Nat) (session_id : String),
        (auth_authorize env sessions provider r1 st now session_id).1 =
        (auth_authorize env sessions provider r2 st now session_id).1) := by
  refine ⟨?_, ?_, ?_, ?_, ?_⟩
  · unfold getQueryParam
    rw [apple_queryParams cid base sid hc hb hs]
    simp [List.lookup]
  · unfold getQueryParam
    rw [apple_queryParams cid base sid hc hb hs]
    simp [List.lookup]
  · unfold getQueryParamDecoded getQueryParam
    rw [google_queryParams]
    simp [List.lookup, unquote_quote sid has]
  · have hascii : ∀ c ∈ (base ++ "/v1/auth/callback/google").data, c.toNat < 128 := by
      intro c hcm
      rw [String.data_append] at hcm
      rcases List.mem_append.mp hcm with hx | hx
      · exact hab c hx
      · have hpath : ∀ x ∈ ("/v1/auth/callback/google" : String).data,
          x.toNat < 128 := by decide
        exact hpath c hx
    unfold getQueryParamDecoded getQueryParam
    rw [google_queryParams]
    simp [List.lookup, unquote_quote _ hascii]
  · intro env sessions provider r1 r2 st now session_id
    simp only [auth_authorize]
    split
    · rfl
    · split
      · rfl
      · rfl

theorem authorize_url_state_and_callback_witness :
    (('&' ∉ ("client123" : String).data
      ∧ '&' ∉ ("http://localhost:8080" : String).data
      ∧ '&' ∉ ("sess-1" : String).data)
      ∧ (∀ c ∈ ("http://localhost:8080" : String).data, c.toNat < 128)
      ∧ (∀ c ∈ ("sess-1" : String).data, c.toNat < 128))
    ∧ (getQueryParam (appleAuthUrl "client123" "http://localhost:8080" "sess-1")
        "state" = some "sess-1"
      ∧ getQueryParam (appleAuthUrl "client123" "http://localhost:8080" "sess-1")
        "redirect_uri" = some ("http://localhost:8080" ++ "/v1/auth/callback/apple")
      ∧ getQueryParamDecoded (googleAuthUrl "client123" "http://localhost:8080" "sess-1")
        "state" = some "sess-1"
      ∧ getQueryParamDecoded (googleAuthUrl "client123" "http://localhost:8080" "sess-1")
        "redirect_uri" = some ("http://localhost:8080" ++ "/v1/auth/callback/google")
      ∧ (∀ (env : Env) (sessions : Store SessionData) (provider r1 r2 : String)
          (st : Option String) (now : Nat) (session_id : String),
          (auth_authorize env sessions provider r1 st now session_id).1 =
          (auth_authorize env sessions provider r2 st now session_id).1)) :=
  ⟨⟨⟨by decide, by decide, by decide⟩, by decide, by decide⟩,
    authorize_url_state_and_callback "client123" "http://localhost:8080" "sess-1"
      (by decide) (by decide) (by decide) (by decide) (by decide)⟩

end OmiAuth
